import Mathlib

/-!
Verification of the cost-composition calculation engine of the
goremi-cost-calculator repository (`cost_calculator.py` and
`cost_calculator_with_sheets.py`).

Python numbers are modelled as exact rationals (`ℚ`); Python dicts passed
between the engine's methods are modelled as structures whose fields carry
the dict keys' names. A material / packaging line dict, which the engine
mutates in place by attaching derived keys, is modelled as a structure that
carries the derived fields as well; the engine always overwrites them.
-/

/-- A raw-material line dict: caller-supplied keys `name`, `ratio`,
`unit_price`, `base_quantity`, plus the derived keys `input_quantity` and
`cost` that `calculate_raw_material_cost` attaches to every line. -/
structure Material where
  name : String
  ratio : ℚ
  unit_price : ℚ
  base_quantity : ℚ
  input_quantity : ℚ
  cost : ℚ
deriving DecidableEq

/-- The guard of the loop body in `calculate_raw_material_cost`:
`material['name'] and material['ratio'] > 0 and material['unit_price'] > 0`
(a Python string is truthy exactly when it is non-empty). -/
def materialValid (material : Material) : Prop :=
  material.name ≠ "" ∧ material.ratio > 0 ∧ material.unit_price > 0

instance (material : Material) : Decidable (materialValid material) :=
  inferInstanceAs (Decidable (_ ∧ _ ∧ _))

/-- The per-line effect of the loop in `calculate_raw_material_cost`: a valid
line gets `input_quantity = ratio / 100 * base_quantity` and
`cost = input_quantity * unit_price`; an invalid line gets both zeroed. -/
def processMaterial (material : Material) : Material :=
  if materialValid material then
    let input_quantity := material.ratio / 100 * material.base_quantity
    let cost := input_quantity * material.unit_price
    { material with input_quantity := input_quantity, cost := cost }
  else
    { material with input_quantity := 0, cost := 0 }

/-- The `for material in materials_data` loop of `calculate_raw_material_cost`:
returns the annotated line list together with the `total_cost` and
`total_weight` accumulators (only valid lines are added to them). -/
def rawMaterialLoop : List Material → List Material × ℚ × ℚ
  | [] => ([], 0, 0)
  | material :: rest =>
    let r := rawMaterialLoop rest
    if materialValid material then
      let input_quantity := material.ratio / 100 * material.base_quantity
      let cost := input_quantity * material.unit_price
      ({ material with input_quantity := input_quantity, cost := cost } :: r.1,
        cost + r.2.1, input_quantity + r.2.2)
    else
      ({ material with input_quantity := 0, cost := 0 } :: r.1, r.2.1, r.2.2)

/-- The dict returned by `calculate_raw_material_cost`. -/
structure RawMaterialResult where
  materials : List Material
  total_cost : ℚ
  total_weight : ℚ
  avg_unit_price : ℚ
deriving DecidableEq

/-- A packaging line dict: caller-supplied keys `name`, `unit_price`,
`quantity`, `weight_per_unit`, plus the derived keys `total_cost` and
`total_weight` that `calculate_packaging_cost` attaches. -/
structure PackagingItem where
  name : String
  unit_price : ℚ
  quantity : ℚ
  weight_per_unit : ℚ
  total_cost : ℚ
  total_weight : ℚ
deriving DecidableEq

/-- The guard of the loop body in `calculate_packaging_cost`:
`item['name'] and item['unit_price'] > 0 and item['quantity'] > 0`. -/
def packagingValid (item : PackagingItem) : Prop :=
  item.name ≠ "" ∧ item.unit_price > 0 ∧ item.quantity > 0

instance (item : PackagingItem) : Decidable (packagingValid item) :=
  inferInstanceAs (Decidable (_ ∧ _ ∧ _))

/-- The `for item in packaging_data` loop of `calculate_packaging_cost`. -/
def packagingLoop : List PackagingItem → List PackagingItem × ℚ × ℚ
  | [] => ([], 0, 0)
  | item :: rest =>
    let r := packagingLoop rest
    if packagingValid item then
      let cost := item.unit_price * item.quantity
      let weight := item.weight_per_unit * item.quantity
      ({ item with total_cost := cost, total_weight := weight } :: r.1,
        cost + r.2.1, weight + r.2.2)
    else
      ({ item with total_cost := 0, total_weight := 0 } :: r.1, r.2.1, r.2.2)

/-- The dict returned by `calculate_packaging_cost`. -/
structure PackagingResult where
  packaging : List PackagingItem
  total_cost : ℚ
  total_weight : ℚ
deriving DecidableEq

/-- The `labor_data` dict consumed by `calculate_labor_cost`. -/
structure LaborData where
  direct_labor : ℚ
  indirect_labor : ℚ
  temporary_labor : ℚ
deriving DecidableEq

/-- The dict returned by `calculate_labor_cost`. -/
structure LaborResult where
  direct_labor : ℚ
  indirect_labor : ℚ
  temporary_labor : ℚ
  total_labor_cost : ℚ
deriving DecidableEq

/-- The `overhead_data` dict consumed by `calculate_manufacturing_overhead`. -/
structure OverheadData where
  other_expenses : ℚ
  welfare_expenses : ℚ
  depreciation : ℚ
deriving DecidableEq

/-- The dict returned by `calculate_manufacturing_overhead`. -/
structure OverheadResult where
  other_expenses : ℚ
  welfare_expenses : ℚ
  depreciation : ℚ
  total_overhead : ℚ
deriving DecidableEq

/-- The dict returned by `calculate_total_cost`. -/
structure TotalCostResult where
  material_cost : ℚ
  labor_cost : ℚ
  overhead_cost : ℚ
  total_manufacturing_cost : ℚ
  unit_material_cost : ℚ
  unit_labor_cost : ℚ
  unit_overhead_cost : ℚ
  unit_manufacturing_cost : ℚ
deriving DecidableEq

/-- The dict returned by `calculate_profit_and_pricing`. -/
structure PricingResult where
  profit_amount : ℚ
  estimated_selling_price : ℚ
  wholesale_price : ℚ
  gross_profit : ℚ
  selling_expenses : ℚ
  non_operating_expenses : ℚ
  net_profit_before_tax : ℚ
  corporate_tax : ℚ
  net_profit : ℚ
deriving DecidableEq

/-- The instance state `__init__` gives a `CostCalculator`: four containers,
never read nor written by any of the six calculation methods. The two dicts
are modelled as association lists. -/
structure CostCalculator where
  raw_materials : List Material
  packaging_materials : List PackagingItem
  labor_costs : List (String × ℚ)
  manufacturing_overhead : List (String × ℚ)
deriving DecidableEq

/-- `CostCalculator()`: `__init__` sets all four containers empty. -/
def CostCalculator.new : CostCalculator := ⟨[], [], [], []⟩

/-- `CostCalculator.calculate_raw_material_cost` (cost_calculator.py lines
17–42). The method reads no instance state; `self` is threaded to model the
method call faithfully. -/
def CostCalculator.calculate_raw_material_cost (_self : CostCalculator)
    (materials_data : List Material) : RawMaterialResult :=
  let r := rawMaterialLoop materials_data
  { materials := r.1
    total_cost := r.2.1
    total_weight := r.2.2
    avg_unit_price := if r.2.2 > 0 then r.2.1 / r.2.2 else 0 }

/-- `CostCalculator.calculate_packaging_cost` (cost_calculator.py lines
44–67). -/
def CostCalculator.calculate_packaging_cost (_self : CostCalculator)
    (packaging_data : List PackagingItem) : PackagingResult :=
  let r := packagingLoop packaging_data
  { packaging := r.1
    total_cost := r.2.1
    total_weight := r.2.2 }

/-- `CostCalculator.calculate_labor_cost` (cost_calculator.py lines 69–82). -/
def CostCalculator.calculate_labor_cost (_self : CostCalculator)
    (labor_data : LaborData) : LaborResult :=
  { direct_labor := labor_data.direct_labor
    indirect_labor := labor_data.indirect_labor
    temporary_labor := labor_data.temporary_labor
    total_labor_cost :=
      labor_data.direct_labor + labor_data.indirect_labor + labor_data.temporary_labor }

/-- `CostCalculator.calculate_manufacturing_overhead` (cost_calculator.py
lines 84–97). -/
def CostCalculator.calculate_manufacturing_overhead (_self : CostCalculator)
    (overhead_data : OverheadData) : OverheadResult :=
  { other_expenses := overhead_data.other_expenses
    welfare_expenses := overhead_data.welfare_expenses
    depreciation := overhead_data.depreciation
    total_overhead :=
      overhead_data.other_expenses + overhead_data.welfare_expenses + overhead_data.depreciation }

/-- `CostCalculator.calculate_total_cost` (cost_calculator.py lines 99–119).
Each per-unit division carries its own `if production_quantity > 0` guard. -/
def CostCalculator.calculate_total_cost (_self : CostCalculator)
    (raw_material_cost : RawMaterialResult) (packaging_cost : PackagingResult)
    (labor_cost : LaborResult) (overhead_cost : OverheadResult)
    (production_quantity : ℚ) : TotalCostResult :=
  let material_cost := raw_material_cost.total_cost + packaging_cost.total_cost
  let total_manufacturing_cost :=
    material_cost + labor_cost.total_labor_cost + overhead_cost.total_overhead
  { material_cost := material_cost
    labor_cost := labor_cost.total_labor_cost
    overhead_cost := overhead_cost.total_overhead
    total_manufacturing_cost := total_manufacturing_cost
    unit_material_cost :=
      if production_quantity > 0 then material_cost / production_quantity else 0
    unit_labor_cost :=
      if production_quantity > 0 then labor_cost.total_labor_cost / production_quantity else 0
    unit_overhead_cost :=
      if production_quantity > 0 then overhead_cost.total_overhead / production_quantity else 0
    unit_manufacturing_cost :=
      if production_quantity > 0 then total_manufacturing_cost / production_quantity else 0 }

/-- `CostCalculator.calculate_profit_and_pricing` (cost_calculator.py lines
121–145). No input validation is performed: every parameter value, negative
ones included, flows through the formulas unchanged. -/
def CostCalculator.calculate_profit_and_pricing (_self : CostCalculator)
    (total_cost : TotalCostResult) (profit_margin selling_expenses
    non_operating_expenses tax_rate : ℚ) : PricingResult :=
  let profit_amount := total_cost.total_manufacturing_cost * (profit_margin / 100)
  let estimated_selling_price := total_cost.total_manufacturing_cost + profit_amount
  let wholesale_price := estimated_selling_price * 1.9
  let gross_profit := wholesale_price - total_cost.total_manufacturing_cost
  let net_profit_before_tax := gross_profit - selling_expenses - non_operating_expenses
  let corporate_tax := net_profit_before_tax * (tax_rate / 100)
  let net_profit := net_profit_before_tax - corporate_tax
  { profit_amount := profit_amount
    estimated_selling_price := estimated_selling_price
    wholesale_price := wholesale_price
    gross_profit := gross_profit
    selling_expenses := selling_expenses
    non_operating_expenses := non_operating_expenses
    net_profit_before_tax := net_profit_before_tax
    corporate_tax := corporate_tax
    net_profit := net_profit }

/-!
`cost_calculator_with_sheets.py` defines `CostCalculatorWithSheets`, whose six
calculation methods (lines 25–149) repeat the bodies of `CostCalculator`'s.
They are embedded here independently so their extensional equality with the
`CostCalculator` versions can be stated and proved. The instance state of
that class (Google Sheets manager handles) is storage plumbing never read by
the calculation methods, so the methods are modelled without a `self`
parameter.
-/

namespace CostCalculatorWithSheets

/-- The `for material in materials_data` loop of
`CostCalculatorWithSheets.calculate_raw_material_cost` (lines 25–49). -/
def rawLoop : List Material → List Material × ℚ × ℚ
  | [] => ([], 0, 0)
  | material :: rest =>
    let r := rawLoop rest
    if material.name ≠ "" ∧ material.ratio > 0 ∧ material.unit_price > 0 then
      let input_quantity := material.ratio / 100 * material.base_quantity
      let cost := input_quantity * material.unit_price
      ({ material with input_quantity := input_quantity, cost := cost } :: r.1,
        cost + r.2.1, input_quantity + r.2.2)
    else
      ({ material with input_quantity := 0, cost := 0 } :: r.1, r.2.1, r.2.2)

/-- `CostCalculatorWithSheets.calculate_raw_material_cost` (lines 25–49). -/
def calculate_raw_material_cost (materials_data : List Material) : RawMaterialResult :=
  let r := rawLoop materials_data
  { materials := r.1
    total_cost := r.2.1
    total_weight := r.2.2
    avg_unit_price := if r.2.2 > 0 then r.2.1 / r.2.2 else 0 }

/-- The `for item in packaging_data` loop of
`CostCalculatorWithSheets.calculate_packaging_cost` (lines 51–74). -/
def packLoop : List PackagingItem → List PackagingItem × ℚ × ℚ
  | [] => ([], 0, 0)
  | item :: rest =>
    let r := packLoop rest
    if item.name ≠ "" ∧ item.unit_price > 0 ∧ item.quantity > 0 then
      let cost := item.unit_price * item.quantity
      let weight := item.weight_per_unit * item.quantity
      ({ item with total_cost := cost, total_weight := weight } :: r.1,
        cost + r.2.1, weight + r.2.2)
    else
      ({ item with total_cost := 0, total_weight := 0 } :: r.1, r.2.1, r.2.2)

/-- `CostCalculatorWithSheets.calculate_packaging_cost` (lines 51–74). -/
def calculate_packaging_cost (packaging_data : List PackagingItem) : PackagingResult :=
  let r := packLoop packaging_data
  { packaging := r.1
    total_cost := r.2.1
    total_weight := r.2.2 }

/-- `CostCalculatorWithSheets.calculate_labor_cost` (lines 76–89). -/
def calculate_labor_cost (labor_data : LaborData) : LaborResult :=
  { direct_labor := labor_data.direct_labor
    indirect_labor := labor_data.indirect_labor
    temporary_labor := labor_data.temporary_labor
    total_labor_cost :=
      labor_data.direct_labor + labor_data.indirect_labor + labor_data.temporary_labor }

/-- `CostCalculatorWithSheets.calculate_manufacturing_overhead` (lines 91–103). -/
def calculate_manufacturing_overhead (overhead_data : OverheadData) : OverheadResult :=
  { other_expenses := overhead_data.other_expenses
    welfare_expenses := overhead_data.welfare_expenses
    depreciation := overhead_data.depreciation
    total_overhead :=
      overhead_data.other_expenses + overhead_data.welfare_expenses + overhead_data.depreciation }

/-- `CostCalculatorWithSheets.calculate_total_cost` (lines 105–124). -/
def calculate_total_cost (raw_material_cost : RawMaterialResult)
    (packaging_cost : PackagingResult) (labor_cost : LaborResult)
    (overhead_cost : OverheadResult) (production_quantity : ℚ) : TotalCostResult :=
  let material_cost := raw_material_cost.total_cost + packaging_cost.total_cost
  let total_manufacturing_cost :=
    material_cost + labor_cost.total_labor_cost + overhead_cost.total_overhead
  { material_cost := material_cost
    labor_cost := labor_cost.total_labor_cost
    overhead_cost := overhead_cost.total_overhead
    total_manufacturing_cost := total_manufacturing_cost
    unit_material_cost :=
      if production_quantity > 0 then material_cost / production_quantity else 0
    unit_labor_cost :=
      if production_quantity > 0 then labor_cost.total_labor_cost / production_quantity else 0
    unit_overhead_cost :=
      if production_quantity > 0 then overhead_cost.total_overhead / production_quantity else 0
    unit_manufacturing_cost :=
      if production_quantity > 0 then total_manufacturing_cost / production_quantity else 0 }

/-- `CostCalculatorWithSheets.calculate_profit_and_pricing` (lines 126–149). -/
def calculate_profit_and_pricing (total_cost : TotalCostResult)
    (profit_margin selling_expenses non_operating_expenses tax_rate : ℚ) : PricingResult :=
  let profit_amount := total_cost.total_manufacturing_cost * (profit_margin / 100)
  let estimated_selling_price := total_cost.total_manufacturing_cost + profit_amount
  let wholesale_price := estimated_selling_price * 1.9
  let gross_profit := wholesale_price - total_cost.total_manufacturing_cost
  let net_profit_before_tax := gross_profit - selling_expenses - non_operating_expenses
  let corporate_tax := net_profit_before_tax * (tax_rate / 100)
  let net_profit := net_profit_before_tax - corporate_tax
  { profit_amount := profit_amount
    estimated_selling_price := estimated_selling_price
    wholesale_price := wholesale_price
    gross_profit := gross_profit
    selling_expenses := selling_expenses
    non_operating_expenses := non_operating_expenses
    net_profit_before_tax := net_profit_before_tax
    corporate_tax := corporate_tax
    net_profit := net_profit }

end CostCalculatorWithSheets

/-! ### Supporting lemmas about the two aggregation loops -/

/-- The annotated line list the raw-material loop builds is the input list
with `processMaterial` applied to every line, in order. -/
theorem rawMaterialLoop_fst : ∀ ms : List Material,
    (rawMaterialLoop ms).1 = ms.map processMaterial
  | [] => rfl
  | material :: rest => by
    simp only [rawMaterialLoop, processMaterial, List.map, rawMaterialLoop_fst rest]
    split <;> rfl

/-- The raw-material loop's `total_cost` accumulator is the sum of the
`cost` fields of the annotated lines. -/
theorem rawMaterialLoop_cost : ∀ ms : List Material,
    (rawMaterialLoop ms).2.1 = ((rawMaterialLoop ms).1.map Material.cost).sum
  | [] => by simp [rawMaterialLoop]
  | material :: rest => by
    simp only [rawMaterialLoop]
    split <;> simp [rawMaterialLoop_cost rest]

/-- The raw-material loop's `total_weight` accumulator is the sum of the
`input_quantity` fields of the annotated lines. -/
theorem rawMaterialLoop_weight : ∀ ms : List Material,
    (rawMaterialLoop ms).2.2 = ((rawMaterialLoop ms).1.map Material.input_quantity).sum
  | [] => by simp [rawMaterialLoop]
  | material :: rest => by
    simp only [rawMaterialLoop]
    split <;> simp [rawMaterialLoop_weight rest]

/-- Dropping a line that fails the loop guard changes neither accumulator of
the raw-material loop. -/
theorem rawMaterialLoop_eraseIdx : ∀ (ms : List Material) (i : ℕ)
    (hi : i < ms.length), ¬ materialValid (ms.get ⟨i, hi⟩) →
    (rawMaterialLoop (ms.eraseIdx i)).2.1 = (rawMaterialLoop ms).2.1 ∧
    (rawMaterialLoop (ms.eraseIdx i)).2.2 = (rawMaterialLoop ms).2.2
  | material :: rest, 0, _, h => by
    have h0 : ¬ materialValid material := by simpa using h
    simp only [List.eraseIdx]
    constructor <;>
      · conv_rhs => simp only [rawMaterialLoop]
        rw [if_neg h0]
  | material :: rest, i + 1, hi, h => by
    have ih := rawMaterialLoop_eraseIdx rest i (by simpa using hi) (by simpa using h)
    simp only [List.eraseIdx]
    constructor <;>
      · simp only [rawMaterialLoop]
        split <;> simp [ih.1, ih.2]

/-- The annotated line list the packaging loop builds keeps the input lines
in order, each with its `total_cost` and `total_weight` attached. -/
theorem packagingLoop_fst : ∀ ps : List PackagingItem,
    (packagingLoop ps).1 = ps.map fun item =>
      if packagingValid item then
        { item with total_cost := item.unit_price * item.quantity,
                    total_weight := item.weight_per_unit * item.quantity }
      else { item with total_cost := 0, total_weight := 0 }
  | [] => rfl
  | item :: rest => by
    simp only [packagingLoop, List.map, packagingLoop_fst rest]
    split <;> rfl

/-- The raw-material loops of the two classes agree on every input list. -/
theorem sheetsRawLoop_eq : ∀ ms : List Material,
    CostCalculatorWithSheets.rawLoop ms = rawMaterialLoop ms
  | [] => rfl
  | material :: rest => by
    simp only [CostCalculatorWithSheets.rawLoop, rawMaterialLoop,
      sheetsRawLoop_eq rest]
    by_cases h : material.name ≠ "" ∧ material.ratio > 0 ∧ material.unit_price > 0
    · rw [if_pos h, if_pos (show materialValid material from h)]
    · rw [if_neg h, if_neg (show ¬ materialValid material from h)]

/-- The packaging loops of the two classes agree on every input list. -/
theorem sheetsPackLoop_eq : ∀ ps : List PackagingItem,
    CostCalculatorWithSheets.packLoop ps = packagingLoop ps
  | [] => rfl
  | item :: rest => by
    simp only [CostCalculatorWithSheets.packLoop, packagingLoop,
      sheetsPackLoop_eq rest]
    by_cases h : item.name ≠ "" ∧ item.unit_price > 0 ∧ item.quantity > 0
    · rw [if_pos h, if_pos (show packagingValid item from h)]
    · rw [if_neg h, if_neg (show ¬ packagingValid item from h)]

/-! ### The claims -/

/-- C1: for every input with total manufacturing cost `c`, profit margin `m`,
selling expenses `s`, non-operating expenses `n` and tax rate `t`,
`calculate_profit_and_pricing` returns, in the documented order:
`profit_amount = c * m / 100`, `estimated_selling_price = c + profit_amount`,
`wholesale_price = estimated_selling_price * 1.9`,
`gross_profit = wholesale_price - c`,
`net_profit_before_tax = gross_profit - s - n`,
`corporate_tax = net_profit_before_tax * t / 100` with no floor at zero
(negative whenever `net_profit_before_tax < 0` and `t > 0`), and
`net_profit = net_profit_before_tax - corporate_tax` — for all inputs,
negative gross profit included. -/
theorem pricing_waterfall (self : CostCalculator) (total_cost : TotalCostResult)
    (profit_margin selling_expenses non_operating_expenses tax_rate : ℚ) :
    (self.calculate_profit_and_pricing total_cost profit_margin selling_expenses
        non_operating_expenses tax_rate).profit_amount =
      total_cost.total_manufacturing_cost * profit_margin / 100 ∧
    (self.calculate_profit_and_pricing total_cost profit_margin selling_expenses
        non_operating_expenses tax_rate).estimated_selling_price =
      total_cost.total_manufacturing_cost +
        (self.calculate_profit_and_pricing total_cost profit_margin selling_expenses
          non_operating_expenses tax_rate).profit_amount ∧
    (self.calculate_profit_and_pricing total_cost profit_margin selling_expenses
        non_operating_expenses tax_rate).wholesale_price =
      (self.calculate_profit_and_pricing total_cost profit_margin selling_expenses
        non_operating_expenses tax_rate).estimated_selling_price * 1.9 ∧
    (self.calculate_profit_and_pricing total_cost profit_margin selling_expenses
        non_operating_expenses tax_rate).gross_profit =
      (self.calculate_profit_and_pricing total_cost profit_margin selling_expenses
        non_operating_expenses tax_rate).wholesale_price -
        total_cost.total_manufacturing_cost ∧
    (self.calculate_profit_and_pricing total_cost profit_margin selling_expenses
        non_operating_expenses tax_rate).net_profit_before_tax =
      (self.calculate_profit_and_pricing total_cost profit_margin selling_expenses
        non_operating_expenses tax_rate).gross_profit -
        selling_expenses - non_operating_expenses ∧
    (self.calculate_profit_and_pricing total_cost profit_margin selling_expenses
        non_operating_expenses tax_rate).corporate_tax =
      (self.calculate_profit_and_pricing total_cost profit_margin selling_expenses
        non_operating_expenses tax_rate).net_profit_before_tax * tax_rate / 100 ∧
    ((self.calculate_profit_and_pricing total_cost profit_margin selling_expenses
        non_operating_expenses tax_rate).net_profit_before_tax < 0 → 0 < tax_rate →
      (self.calculate_profit_and_pricing total_cost profit_margin selling_expenses
        non_operating_expenses tax_rate).corporate_tax < 0) ∧
    (self.calculate_profit_and_pricing total_cost profit_margin selling_expenses
        non_operating_expenses tax_rate).net_profit =
      (self.calculate_profit_and_pricing total_cost profit_margin selling_expenses
        non_operating_expenses tax_rate).net_profit_before_tax -
        (self.calculate_profit_and_pricing total_cost profit_margin selling_expenses
          non_operating_expenses tax_rate).corporate_tax := by
  refine ⟨by simp [CostCalculator.calculate_profit_and_pricing]; ring, rfl, rfl, rfl, rfl,
    by simp [CostCalculator.calculate_profit_and_pricing]; ring, ?_, rfl⟩
  intro hneg ht
  simp only [CostCalculator.calculate_profit_and_pricing] at hneg ⊢
  exact mul_neg_of_neg_of_pos hneg (by positivity)

/-- C7: for every input list, `calculate_raw_material_cost` returns
`avg_unit_price = total_cost / total_weight` when `total_weight > 0` and
`avg_unit_price = 0` otherwise; the division is guarded, so the result is
defined for every input. -/
theorem avg_unit_price_guarded (self : CostCalculator) (materials_data : List Material) :
    ((self.calculate_raw_material_cost materials_data).total_weight > 0 →
      (self.calculate_raw_material_cost materials_data).avg_unit_price =
        (self.calculate_raw_material_cost materials_data).total_cost /
          (self.calculate_raw_material_cost materials_data).total_weight) ∧
    (¬ (self.calculate_raw_material_cost materials_data).total_weight > 0 →
      (self.calculate_raw_material_cost materials_data).avg_unit_price = 0) := by
  constructor <;> intro h <;>
    simp only [CostCalculator.calculate_raw_material_cost] at h ⊢ <;>
    simp [h]

/-- C9: every engine function is deterministic — two calls with equal inputs
return equal outputs, irrespective of which `CostCalculator` instance (and
hence which instance state) the method is invoked on, and the call leaves no
trace in the instance: the six methods read none of the four `__init__`
containers. -/
theorem engine_deterministic (self1 self2 : CostCalculator)
    (materials_data : List Material) (packaging_data : List PackagingItem)
    (labor_data : LaborData) (overhead_data : OverheadData)
    (raw_material_cost : RawMaterialResult) (packaging_cost : PackagingResult)
    (labor_cost : LaborResult) (overhead_cost : OverheadResult)
    (production_quantity : ℚ) (total_cost : TotalCostResult)
    (profit_margin selling_expenses non_operating_expenses tax_rate : ℚ) :
    self1.calculate_raw_material_cost materials_data =
      self2.calculate_raw_material_cost materials_data ∧
    self1.calculate_packaging_cost packaging_data =
      self2.calculate_packaging_cost packaging_data ∧
    self1.calculate_labor_cost labor_data = self2.calculate_labor_cost labor_data ∧
    self1.calculate_manufacturing_overhead overhead_data =
      self2.calculate_manufacturing_overhead overhead_data ∧
    self1.calculate_total_cost raw_material_cost packaging_cost labor_cost
        overhead_cost production_quantity =
      self2.calculate_total_cost raw_material_cost packaging_cost labor_cost
        overhead_cost production_quantity ∧
    self1.calculate_profit_and_pricing total_cost profit_margin selling_expenses
        non_operating_expenses tax_rate =
      self2.calculate_profit_and_pricing total_cost profit_margin selling_expenses
        non_operating_expenses tax_rate :=
  ⟨rfl, rfl, rfl, rfl, rfl, rfl⟩

/-- C10: the six calculation methods of `CostCalculatorWithSheets` are
extensionally equal to the identically named methods of `CostCalculator`:
for every input (and every `CostCalculator` instance), both implementations
return the same result. -/
theorem sheets_methods_equal (self : CostCalculator)
    (materials_data : List Material) (packaging_data : List PackagingItem)
    (labor_data : LaborData) (overhead_data : OverheadData)
    (raw_material_cost : RawMaterialResult) (packaging_cost : PackagingResult)
    (labor_cost : LaborResult) (overhead_cost : OverheadResult)
    (production_quantity : ℚ) (total_cost : TotalCostResult)
    (profit_margin selling_expenses non_operating_expenses tax_rate : ℚ) :
    CostCalculatorWithSheets.calculate_raw_material_cost materials_data =
      self.calculate_raw_material_cost materials_data ∧
    CostCalculatorWithSheets.calculate_packaging_cost packaging_data =
      self.calculate_packaging_cost packaging_data ∧
    CostCalculatorWithSheets.calculate_labor_cost labor_data =
      self.calculate_labor_cost labor_data ∧
    CostCalculatorWithSheets.calculate_manufacturing_overhead overhead_data =
      self.calculate_manufacturing_overhead overhead_data ∧
    CostCalculatorWithSheets.calculate_total_cost raw_material_cost packaging_cost
        labor_cost overhead_cost production_quantity =
      self.calculate_total_cost raw_material_cost packaging_cost labor_cost
        overhead_cost production_quantity ∧
    CostCalculatorWithSheets.calculate_profit_and_pricing total_cost profit_margin
        selling_expenses non_operating_expenses tax_rate =
      self.calculate_profit_and_pricing total_cost profit_margin selling_expenses
        non_operating_expenses tax_rate := by
  refine ⟨?_, ?_, rfl, rfl, rfl, rfl⟩
  · simp only [CostCalculatorWithSheets.calculate_raw_material_cost,
      CostCalculator.calculate_raw_material_cost, sheetsRawLoop_eq]
  · simp only [CostCalculatorWithSheets.calculate_packaging_cost,
      CostCalculator.calculate_packaging_cost, sheetsPackLoop_eq]

/-- C5: for every input list, the result of `calculate_raw_material_cost`
satisfies `total_cost = Σ line.cost` and `total_weight = Σ line.input_quantity`
over the annotated lines of the returned list, where a valid line carries
`cost = ratio / 100 * base_quantity * unit_price` and
`input_quantity = ratio / 100 * base_quantity`, and an invalid line carries 0
for both. -/
theorem raw_material_totals_are_sums (self : CostCalculator)
    (materials_data : List Material) :
    (self.calculate_raw_material_cost materials_data).total_cost =
      ((self.calculate_raw_material_cost materials_data).materials.map
        Material.cost).sum ∧
    (self.calculate_raw_material_cost materials_data).total_weight =
      ((self.calculate_raw_material_cost materials_data).materials.map
        Material.input_quantity).sum ∧
    ∀ (j : ℕ) (hj : j < materials_data.length)
      (hj2 : j < (self.calculate_raw_material_cost materials_data).materials.length),
      ((self.calculate_raw_material_cost materials_data).materials[j].cost =
        if materialValid materials_data[j] then
          materials_data[j].ratio / 100 * materials_data[j].base_quantity *
            materials_data[j].unit_price
        else 0) ∧
      ((self.calculate_raw_material_cost materials_data).materials[j].input_quantity =
        if materialValid materials_data[j] then
          materials_data[j].ratio / 100 * materials_data[j].base_quantity
        else 0) := by
  refine ⟨rawMaterialLoop_cost materials_data, rawMaterialLoop_weight materials_data, ?_⟩
  intro j hj hj2
  have hm : (self.calculate_raw_material_cost materials_data).materials =
      materials_data.map processMaterial := rawMaterialLoop_fst materials_data
  rw [show (self.calculate_raw_material_cost materials_data).materials[j] =
      processMaterial materials_data[j] by
    simp only [hm]
    exact List.getElem_map processMaterial]
  by_cases h : materialValid materials_data[j] <;>
    simp [processMaterial, h]

/-- C6: for every input to `calculate_total_cost` with
`production_quantity ≤ 0`, all four per-unit fields are 0 (the guarded
division never faults), while the aggregate fields equal the values they take
for any positive production quantity with the same cost inputs. -/
theorem total_cost_nonpositive_quantity (self : CostCalculator)
    (raw_material_cost : RawMaterialResult) (packaging_cost : PackagingResult)
    (labor_cost : LaborResult) (overhead_cost : OverheadResult)
    (production_quantity : ℚ) (h : production_quantity ≤ 0) :
    (self.calculate_total_cost raw_material_cost packaging_cost labor_cost
      overhead_cost production_quantity).unit_material_cost = 0 ∧
    (self.calculate_total_cost raw_material_cost packaging_cost labor_cost
      overhead_cost production_quantity).unit_labor_cost = 0 ∧
    (self.calculate_total_cost raw_material_cost packaging_cost labor_cost
      overhead_cost production_quantity).unit_overhead_cost = 0 ∧
    (self.calculate_total_cost raw_material_cost packaging_cost labor_cost
      overhead_cost production_quantity).unit_manufacturing_cost = 0 ∧
    ∀ positive_quantity : ℚ, 0 < positive_quantity →
      (self.calculate_total_cost raw_material_cost packaging_cost labor_cost
          overhead_cost positive_quantity).material_cost =
        (self.calculate_total_cost raw_material_cost packaging_cost labor_cost
          overhead_cost production_quantity).material_cost ∧
      (self.calculate_total_cost raw_material_cost packaging_cost labor_cost
          overhead_cost positive_quantity).labor_cost =
        (self.calculate_total_cost raw_material_cost packaging_cost labor_cost
          overhead_cost production_quantity).labor_cost ∧
      (self.calculate_total_cost raw_material_cost packaging_cost labor_cost
          overhead_cost positive_quantity).overhead_cost =
        (self.calculate_total_cost raw_material_cost packaging_cost labor_cost
          overhead_cost production_quantity).overhead_cost ∧
      (self.calculate_total_cost raw_material_cost packaging_cost labor_cost
          overhead_cost positive_quantity).total_manufacturing_cost =
        (self.calculate_total_cost raw_material_cost packaging_cost labor_cost
          overhead_cost production_quantity).total_manufacturing_cost := by
  have hng : ¬ production_quantity > 0 := not_lt.mpr h
  refine ⟨?_, ?_, ?_, ?_, fun q hq => ⟨rfl, rfl, rfl, rfl⟩⟩ <;>
    simp [CostCalculator.calculate_total_cost, hng]

/-- Witness for C6 at production quantity 0 and empty cost inputs. -/
theorem total_cost_nonpositive_quantity_witness :
    (CostCalculator.new.calculate_total_cost ⟨[], 0, 0, 0⟩ ⟨[], 0, 0⟩
      ⟨0, 0, 0, 0⟩ ⟨0, 0, 0, 0⟩ 0).unit_manufacturing_cost = 0 :=
  (total_cost_nonpositive_quantity CostCalculator.new ⟨[], 0, 0, 0⟩ ⟨[], 0, 0⟩
    ⟨0, 0, 0, 0⟩ ⟨0, 0, 0, 0⟩ 0 (le_refl 0)).2.2.2.1

/-- Line `j` of the returned materials list is line `j` of the input with
`processMaterial` applied. -/
theorem rawMaterial_materials_getElem (self : CostCalculator)
    (ms : List Material) (j : ℕ) (hj : j < ms.length)
    (hj2 : j < (self.calculate_raw_material_cost ms).materials.length) :
    (self.calculate_raw_material_cost ms).materials[j] = processMaterial ms[j] := by
  have hm : (self.calculate_raw_material_cost ms).materials =
      ms.map processMaterial := rawMaterialLoop_fst ms
  simp only [hm]
  exact List.getElem_map processMaterial

/-- C4: for every input list of `calculate_raw_material_cost` and every line
in it with empty name, or ratio ≤ 0, or unit price ≤ 0, the returned line has
`input_quantity = 0` and `cost = 0` exactly; the line contributes nothing to
`total_cost` or `total_weight` (dropping it leaves both totals unchanged);
and the line is never excluded — the returned list has the same lines, with
their caller-supplied fields intact, in the same order as the input. -/
theorem raw_material_invalid_line_zeroed (self : CostCalculator)
    (materials_data : List Material) (i : ℕ) (hi : i < materials_data.length)
    (hinv : materials_data[i].name = "" ∨ materials_data[i].ratio ≤ 0 ∨
      materials_data[i].unit_price ≤ 0) :
    (self.calculate_raw_material_cost materials_data).materials.length =
      materials_data.length ∧
    (∀ (j : ℕ) (hj : j < materials_data.length)
      (hj2 : j < (self.calculate_raw_material_cost materials_data).materials.length),
      (self.calculate_raw_material_cost materials_data).materials[j].name =
        materials_data[j].name ∧
      (self.calculate_raw_material_cost materials_data).materials[j].ratio =
        materials_data[j].ratio ∧
      (self.calculate_raw_material_cost materials_data).materials[j].unit_price =
        materials_data[j].unit_price ∧
      (self.calculate_raw_material_cost materials_data).materials[j].base_quantity =
        materials_data[j].base_quantity) ∧
    (∀ hi2 : i < (self.calculate_raw_material_cost materials_data).materials.length,
      (self.calculate_raw_material_cost materials_data).materials[i].input_quantity = 0 ∧
      (self.calculate_raw_material_cost materials_data).materials[i].cost = 0) ∧
    (self.calculate_raw_material_cost (materials_data.eraseIdx i)).total_cost =
      (self.calculate_raw_material_cost materials_data).total_cost ∧
    (self.calculate_raw_material_cost (materials_data.eraseIdx i)).total_weight =
      (self.calculate_raw_material_cost materials_data).total_weight := by
  have hnv : ¬ materialValid materials_data[i] := by
    rintro ⟨h1, h2, h3⟩
    rcases hinv with h | h | h
    · exact h1 h
    · exact absurd h2 (not_lt.mpr h)
    · exact absurd h3 (not_lt.mpr h)
  have hm : (self.calculate_raw_material_cost materials_data).materials =
      materials_data.map processMaterial := rawMaterialLoop_fst materials_data
  have herase := rawMaterialLoop_eraseIdx materials_data i hi (by simpa using hnv)
  refine ⟨by simp [hm], ?_, ?_, herase.1, herase.2⟩
  · intro j hj hj2
    rw [rawMaterial_materials_getElem self materials_data j hj hj2]
    unfold processMaterial
    split <;> exact ⟨rfl, rfl, rfl, rfl⟩
  · intro hi2
    rw [rawMaterial_materials_getElem self materials_data i hi hi2]
    simp [processMaterial, hnv]

/-- A raw-material line with an empty name, used to instantiate C4. -/
def blankLine : Material := ⟨"", 50, 10, 1000, 5, 7⟩

/-- Witness for C4 at a one-line list whose line has an empty name. -/
theorem raw_material_invalid_line_zeroed_witness :
    (CostCalculator.new.calculate_raw_material_cost [blankLine]).materials.length = 1 :=
  (raw_material_invalid_line_zeroed CostCalculator.new [blankLine] 0
    (by simp) (Or.inl rfl)).1

/-- The packaging line of the documented scenario:
`{name: "Pouch", unit_price: 197, quantity: 2703, weight_per_unit: 0.4}`. -/
def pouchLine : PackagingItem := ⟨"Pouch", 197, 2703, 0.4, 0, 0⟩

/-- C3, counterexample: on the single-line list with the "Pouch" packaging
line, `calculate_packaging_cost` does not return `total_cost = 532191`:
`197 * 2703 = 532491`. -/
theorem packaging_scenario_cost_ne :
    (CostCalculator.new.calculate_packaging_cost [pouchLine]).total_cost ≠ 532191 := by
  have hp : "Pouch" ≠ "" := by decide
  norm_num [CostCalculator.calculate_packaging_cost, packagingLoop, packagingValid,
    pouchLine, hp]

/-- C3, amended: on the single-line list with the "Pouch" packaging line,
`calculate_packaging_cost` returns `total_cost = 532491` (= 197 × 2703) and
`total_weight = 1081.2` (= 0.4 × 2703). -/
theorem packaging_scenario :
    (CostCalculator.new.calculate_packaging_cost [pouchLine]).total_cost = 532491 ∧
    (CostCalculator.new.calculate_packaging_cost [pouchLine]).total_weight = 1081.2 := by
  have hp : "Pouch" ≠ "" := by decide
  constructor <;>
    norm_num [CostCalculator.calculate_packaging_cost, packagingLoop, packagingValid,
      pouchLine, hp]

/-- C8: whenever the total-cost input carries
`total_manufacturing_cost = 7489033` and the profit margin is 30 (any selling
expenses, non-operating expenses and tax rate), `calculate_profit_and_pricing`
returns `profit_amount = 2246709.9`, `estimated_selling_price = 9735742.9`
and `wholesale_price = 18497911.51`. -/
theorem pricing_scenario (self : CostCalculator) (total_cost : TotalCostResult)
    (selling_expenses non_operating_expenses tax_rate : ℚ)
    (h : total_cost.total_manufacturing_cost = 7489033) :
    (self.calculate_profit_and_pricing total_cost 30 selling_expenses
      non_operating_expenses tax_rate).profit_amount = 2246709.9 ∧
    (self.calculate_profit_and_pricing total_cost 30 selling_expenses
      non_operating_expenses tax_rate).estimated_selling_price = 9735742.9 ∧
    (self.calculate_profit_and_pricing total_cost 30 selling_expenses
      non_operating_expenses tax_rate).wholesale_price = 18497911.51 := by
  refine ⟨?_, ?_, ?_⟩ <;>
    norm_num [CostCalculator.calculate_profit_and_pricing, h]

/-- Witness for C8 at a concrete total-cost record. -/
theorem pricing_scenario_witness :
    (CostCalculator.new.calculate_profit_and_pricing ⟨0, 0, 0, 7489033, 0, 0, 0, 0⟩
      30 1705000 137000 22).wholesale_price = 18497911.51 :=
  (pricing_scenario CostCalculator.new ⟨0, 0, 0, 7489033, 0, 0, 0, 0⟩
    1705000 137000 22 rfl).2.2

/-- C2, counterexample: called with `profit_margin = -10` and
`tax_rate = -5` on a total manufacturing cost of 100,
`calculate_profit_and_pricing` raises no "invalid parameter" error — it
returns a full pricing result whose figures are the formulas applied to the
negative parameters (a negative profit amount and a negative tax are
propagated silently). -/
theorem pricing_negative_params_propagate :
    (CostCalculator.new.calculate_profit_and_pricing ⟨0, 0, 0, 100, 0, 0, 0, 0⟩
      (-10) 0 0 (-5)).profit_amount = -10 ∧
    (CostCalculator.new.calculate_profit_and_pricing ⟨0, 0, 0, 100, 0, 0, 0, 0⟩
      (-10) 0 0 (-5)).estimated_selling_price = 90 ∧
    (CostCalculator.new.calculate_profit_and_pricing ⟨0, 0, 0, 100, 0, 0, 0, 0⟩
      (-10) 0 0 (-5)).wholesale_price = 171 ∧
    (CostCalculator.new.calculate_profit_and_pricing ⟨0, 0, 0, 100, 0, 0, 0, 0⟩
      (-10) 0 0 (-5)).gross_profit = 71 ∧
    (CostCalculator.new.calculate_profit_and_pricing ⟨0, 0, 0, 100, 0, 0, 0, 0⟩
      (-10) 0 0 (-5)).net_profit_before_tax = 71 ∧
    (CostCalculator.new.calculate_profit_and_pricing ⟨0, 0, 0, 100, 0, 0, 0, 0⟩
      (-10) 0 0 (-5)).corporate_tax = -3.55 ∧
    (CostCalculator.new.calculate_profit_and_pricing ⟨0, 0, 0, 100, 0, 0, 0, 0⟩
      (-10) 0 0 (-5)).net_profit = 74.55 ∧
    (CostCalculator.new.calculate_profit_and_pricing ⟨0, 0, 0, 100, 0, 0, 0, 0⟩
      (-10) 0 0 (-5)).profit_amount < 0 ∧
    (CostCalculator.new.calculate_profit_and_pricing ⟨0, 0, 0, 100, 0, 0, 0, 0⟩
      (-10) 0 0 (-5)).corporate_tax < 0 := by
  refine ⟨?_, ?_, ?_, ?_, ?_, ?_, ?_, ?_, ?_⟩ <;>
    norm_num [CostCalculator.calculate_profit_and_pricing]

/-- C2, amended: the engine performs no validation of `profit_margin` or
`tax_rate` — for every call with `profit_margin < 0` or `tax_rate < 0` it
returns the ordinary pricing result, the waterfall formulas applied to the
negative values unchanged, rather than rejecting the call. -/
theorem pricing_no_input_validation (self : CostCalculator)
    (total_cost : TotalCostResult)
    (profit_margin selling_expenses non_operating_expenses tax_rate : ℚ)
    (h : profit_margin < 0 ∨ tax_rate < 0) :
    (self.calculate_profit_and_pricing total_cost profit_margin selling_expenses
        non_operating_expenses tax_rate).profit_amount =
      total_cost.total_manufacturing_cost * profit_margin / 100 ∧
    (self.calculate_profit_and_pricing total_cost profit_margin selling_expenses
        non_operating_expenses tax_rate).corporate_tax =
      ((self.calculate_profit_and_pricing total_cost profit_margin selling_expenses
          non_operating_expenses tax_rate).gross_profit -
        selling_expenses - non_operating_expenses) * tax_rate / 100 ∧
    (self.calculate_profit_and_pricing total_cost profit_margin selling_expenses
        non_operating_expenses tax_rate).net_profit =
      (self.calculate_profit_and_pricing total_cost profit_margin selling_expenses
        non_operating_expenses tax_rate).net_profit_before_tax -
      (self.calculate_profit_and_pricing total_cost profit_margin selling_expenses
        non_operating_expenses tax_rate).corporate_tax := by
  refine ⟨?_, ?_, rfl⟩ <;>
    · simp [CostCalculator.calculate_profit_and_pricing]
      ring

/-- Witness for C2's amended statement at `profit_margin = -10`. -/
theorem pricing_no_input_validation_witness :
    (CostCalculator.new.calculate_profit_and_pricing ⟨0, 0, 0, 100, 0, 0, 0, 0⟩
      (-10) 0 0 (-5)).profit_amount =
      (⟨0, 0, 0, 100, 0, 0, 0, 0⟩ : TotalCostResult).total_manufacturing_cost *
        (-10) / 100 :=
  (pricing_no_input_validation CostCalculator.new ⟨0, 0, 0, 100, 0, 0, 0, 0⟩
    (-10) 0 0 (-5) (Or.inl (by norm_num))).1
